import Mathlib

/-!
# Collector bootstrap: mode selection and service hand-off

A shallow embedding of `main.go` and `main_windows.go` of the collector
distribution (package `main`, Windows build).

Calls that leave the two source files (the Go standard library, the
`golang.org/x/sys/windows/svc` package, the collector `service` package and the
package-level functions `components` and `NewWindowsService`, which live in
other files) are taken from a `World` record of their results. Every such call
is appended to a trace of events, so a theorem can say which calls a run made
and in which order. `log.Fatalf` and `log.Fatal` write one log line and then
end the process with `os.Exit(1)`; a run that ended this way has the outcome
`exited` and nothing after it is executed.
-/

namespace Collector

/-! ## Go error values -/

/-- A Go `error` value that is not nil. `errorString` is a leaf error carrying
its message; `wrapError` is the value built by `fmt.Errorf` with a `%w` verb:
its own message and the error it wraps. The nil error is `none` of
`Option GoError`. -/
inductive GoError where
  | errorString (s : String)
  | wrapError (msg : String) (err : GoError)
  deriving DecidableEq, Repr

/-- The method `Error()`: the message of an error. -/
def GoError.Error : GoError → String
  | .errorString s => s
  | .wrapError msg _ => msg

/-- The method `Unwrap()` as seen by `errors.Unwrap`: the wrapped error, if any. -/
def GoError.Unwrap : GoError → Option GoError
  | .errorString _ => none
  | .wrapError _ err => some err

/-- The call `fmt.Errorf(lead + "%w", err)` for a format whose only verb is a
trailing `%w`: the message is the literal text followed by `err.Error()`, and
the result wraps `err`. -/
def fmtErrorfW (lead : String) (err : GoError) : GoError :=
  .wrapError (lead ++ err.Error) err

/-! ## Settings -/

/-- The struct `component.BuildInfo`. -/
structure BuildInfo where
  Command : String
  Description : String
  Version : String
  deriving DecidableEq, Repr

/-- The struct `service.CollectorSettings`, with the two fields the source sets.
`F` is the type `component.Factories`. -/
structure CollectorSettings (F : Type) where
  BuildInfo : BuildInfo
  Factories : F
  deriving DecidableEq, Repr

/-! ## Processes with a trace -/

/-- How a piece of code ended: it returned a value, or the process was ended
by `os.Exit` with the given code. -/
inductive Outcome (α : Type) where
  | returned (value : α)
  | exited (code : Nat)
  deriving DecidableEq, Repr

/-- The result of running a piece of code: the events it performed, in order,
and how it ended. -/
structure Run (E α : Type) where
  trace : List E
  outcome : Outcome α
  deriving DecidableEq, Repr

/-- Code that performs nothing and returns `a`. -/
def Run.pure {E α : Type} (a : α) : Run E α := ⟨[], .returned a⟩

/-- Sequencing: run `m`; if it returned, continue with `f` on its value; if the
process was ended inside `m`, nothing more runs. -/
def Run.bind {E α β : Type} (m : Run E α) (f : α → Run E β) : Run E β :=
  match m.outcome with
  | .returned a => ⟨m.trace ++ (f a).trace, (f a).outcome⟩
  | .exited code => ⟨m.trace, .exited code⟩

instance {E : Type} : Monad (Run E) where
  pure := Run.pure
  bind := Run.bind

/-- One call out of the source files: record the event, return the result. -/
def Run.call {E α : Type} (e : E) (result : α) : Run E α := ⟨[e], .returned result⟩

/-- The exit code the operating system sees: the code given to `os.Exit`, or 0
when `main` returned. -/
def Run.exitCode {E α : Type} (r : Run E α) : Nat :=
  match r.outcome with
  | .returned _ => 0
  | .exited code => code

/-! ## The world outside the two source files -/

/-- The calls the source makes outside its two files. `F` is
`component.Factories`, `C` the command type returned by `service.NewCommand`,
`H` the handler type returned by `NewWindowsService`. -/
inductive Event (F C H : Type) where
  | components
  | lookupEnv (key : String)
  | isAnInteractiveSession
  | newCommand (params : CollectorSettings F)
  | execute (cmd : C)
  | newWindowsService (params : CollectorSettings F)
  | svcRun (name : String) (handler : H)
  | logOutput (msg : String)
  | osExit (code : Nat)
  deriving DecidableEq, Repr

/-- What each outside call answers. `lookupEnv key` is `none` when the variable
is not present and `some value` when it is (the pair `value, present` of
`os.LookupEnv`). An `error` result is `none` for nil. -/
structure World (F C H : Type) where
  components : F × Option GoError
  lookupEnv : String → Option String
  isAnInteractiveSession : Bool × Option GoError
  newCommand : CollectorSettings F → C
  execute : C → Option GoError
  newWindowsService : CollectorSettings F → H
  svcRun : String → H → Option GoError

variable {F C H : Type}

/-- The functions `log.Fatalf` and `log.Fatal` with the message already
formatted: one line of log output, then `os.Exit(1)`. -/
def logFatal {α : Type} (msg : String) : Run (Event F C H) α :=
  ⟨[.logOutput msg, .osExit 1], .exited 1⟩

/-! ## main_windows.go -/

/-- The function `checkUseInteractiveMode` of `main_windows.go`. The condition
`present && value != "0"` of the source is `some value` with `value ≠ "0"`. -/
def checkUseInteractiveMode (w : World F C H) : Run (Event F C H) (Bool × Option GoError) := do
  let lookup ← Run.call (.lookupEnv "NO_WINDOWS_SERVICE") (w.lookupEnv "NO_WINDOWS_SERVICE")
  if (match lookup with
      | some value => decide (value ≠ "0")
      | none => false) then
    return (true, none)
  else
    let (isInteractiveSession, err) ← Run.call .isAnInteractiveSession w.isAnInteractiveSession
    match err with
    | some e =>
      return (false, some (fmtErrorfW
        "failed to determine if we are running in an interactive session: " e))
    | none => return (isInteractiveSession, none)

/-- The function `runInteractive` of `main.go`. -/
def runInteractive (w : World F C H) (params : CollectorSettings F) :
    Run (Event F C H) (Option GoError) := do
  let cmd ← Run.call (.newCommand params) (w.newCommand params)
  let err ← Run.call (.execute cmd) (w.execute cmd)
  match err with
  | some e => logFatal ("collector server run finished with error: " ++ e.Error)
  | none => return none

/-- The function `runService` of `main_windows.go`. -/
def runService (w : World F C H) (params : CollectorSettings F) :
    Run (Event F C H) (Option GoError) := do
  let winService ← Run.call (.newWindowsService params) (w.newWindowsService params)
  let err ← Run.call (.svcRun "" winService) (w.svcRun "" winService)
  match err with
  | some e => return some (fmtErrorfW "failed to start collector server: " e)
  | none => return none

/-- The function `run` of `main_windows.go`. -/
def run (w : World F C H) (params : CollectorSettings F) :
    Run (Event F C H) (Option GoError) := do
  let (useInteractiveMode, err) ← checkUseInteractiveMode w
  match err with
  | some e => return some e
  | none =>
    if useInteractiveMode then
      runInteractive w params
    else
      runService w params

/-! ## main.go -/

/-- The build information `main` attaches to the settings. -/
def info : BuildInfo where
  Command := "$\x7bproject.artifactId\x7d"
  Description := "Hardware Sentry OpenTelemetry Collector distribution"
  Version := "$\x7bproject.version\x7d (Build $\x7bbuildNumber\x7d on $\x7btimestamp\x7d)"

/-- The function `main` of `main.go`. -/
def main (w : World F C H) : Run (Event F C H) Unit := do
  let (factories, err) ← Run.call .components w.components
  match err with
  | some e => logFatal ("failed to build components: " ++ e.Error)
  | none =>
    let err ← run w { BuildInfo := info, Factories := factories }
    match err with
    | some e => logFatal e.Error
    | none => return ()

/-! ## Reading a trace -/

/-- Whether an event is one of the two calls `runInteractive` makes. -/
def Event.ofRunInteractive : Event F C H → Bool
  | .newCommand _ => true
  | .execute _ => true
  | _ => false

/-- Whether an event is one of the two calls `runService` makes. -/
def Event.ofRunService : Event F C H → Bool
  | .newWindowsService _ => true
  | .svcRun _ _ => true
  | _ => false

/-- Whether an event belongs to mode selection: the environment lookup or the
session query of `checkUseInteractiveMode`. -/
def Event.ofModeSelection : Event F C H → Bool
  | .lookupEnv _ => true
  | .isAnInteractiveSession => true
  | _ => false

/-- Whether an event is a lookup of an environment variable. -/
def Event.isLookupEnv : Event F C H → Bool
  | .lookupEnv _ => true
  | _ => false

/-- Whether an event is the session query `svc.IsAnInteractiveSession`. -/
def Event.isSessionQuery : Event F C H → Bool
  | .isAnInteractiveSession => true
  | _ => false

/-- Whether an event talks to the service manager of the operating system: a
call into the `svc` package, or the construction of the service handler. -/
def Event.ofServiceManager : Event F C H → Bool
  | .isAnInteractiveSession => true
  | .newWindowsService _ => true
  | .svcRun _ _ => true
  | _ => false

/-! ## Concrete worlds -/

/-- A world over strings: the factories are `"factories"`, a command and a
handler are named after what built them, and the five answers that vary are
given. Only the variable `NO_WINDOWS_SERVICE` may be present. -/
def sampleWorld (components : Option GoError) (env : Option String)
    (session : Bool × Option GoError) (execute svcRun : Option GoError) :
    World String String String where
  components := ("factories", components)
  lookupEnv := fun key => if key = "NO_WINDOWS_SERVICE" then env else none
  isAnInteractiveSession := session
  newCommand := fun _ => "command"
  execute := fun _ => execute
  newWindowsService := fun _ => "handler"
  svcRun := fun _ _ => svcRun

/-- The settings `main` builds in a `sampleWorld`. -/
def sampleSettings : CollectorSettings String where
  BuildInfo := info
  Factories := "factories"

/-- The error of a session query that was refused. -/
def accessDenied : GoError := .errorString "Access is denied."

/-! ## The service control adapter

The handler that `NewWindowsService` returns is not in the two source files.
The definitions of this section follow section 4.2 of the specification: a
state machine over the service status, driven by the control requests of the
service manager and by what the pipeline engine does. All transitions are
serialized, so a run of the adapter is a list of inputs handled one by one. -/

/-- Modelled from the spec: the kinds of service control request (the handler
of `NewWindowsService` that receives them is not in the source files). -/
inductive Request where
  | Start
  | Stop
  | Interrogate
  | Shutdown
  deriving DecidableEq, Repr

/-- Modelled from the spec: the four values of the service status (the handler
of `NewWindowsService` that reports them is not in the source files). -/
inductive Status where
  | StartPending
  | Running
  | StopPending
  | Stopped
  deriving DecidableEq, Repr

/-- Modelled from the spec: a service status with its accepted controls, the
request kinds the service declares itself willing to receive (the status type
of the absent handler; the optional wait hint is left out). -/
structure ServiceStatus where
  state : Status
  accepts : List Request
  deriving DecidableEq, Repr

/-- Modelled from the spec: what reaches the absent adapter. The pipeline
engine accepted its settings and began executing (`engineStarted`), the engine
failed to build (`engineBuildFailed`), the service manager delivered a control
request (`request`), or the run call of the engine returned
(`engineReturned`). -/
inductive Input where
  | engineStarted
  | engineBuildFailed
  | request (r : Request)
  | engineReturned
  deriving DecidableEq, Repr

/-- Modelled from the spec: what the absent adapter does to the outside: it
reports a status to the service manager, or signals the pipeline engine to
stop. -/
inductive Output where
  | report (status : ServiceStatus)
  | engineStop
  deriving DecidableEq, Repr

namespace Adapter

/-- Modelled from the spec: the initial status of the absent adapter,
StartPending with no accepted control. -/
def initial : ServiceStatus := ⟨.StartPending, []⟩

/-- Modelled from the spec: the status of the absent adapter after the engine
started, Running with Stop and Shutdown accepted. -/
def running : ServiceStatus := ⟨.Running, [.Stop, .Shutdown]⟩

/-- Modelled from the spec: the status of the absent adapter after a stop
request was taken, StopPending with no accepted control. -/
def stopPending : ServiceStatus := ⟨.StopPending, []⟩

/-- Modelled from the spec: the terminal status of the absent adapter. -/
def stopped : ServiceStatus := ⟨.Stopped, []⟩

/-- Modelled from the spec: one transition of the absent adapter (section 4.2),
giving the next status and what is emitted.
* Engine startup succeeded while StartPending: go to Running and report it.
* Engine failed to build while StartPending: go to the terminal status and
  report it (section 8; section 4.2 lists no transition for this input).
* Interrogate, in any state: report the current status again, no change.
* Stop or Shutdown: taken only when the accepted controls include the
  request; then go to StopPending, report it and signal the engine to stop.
  Otherwise the request is ignored.
* The run call of the engine returned while Running or StopPending: go to
  Stopped and report it.
* Everything else, and every engine event in the terminal status, changes
  nothing. The specification gives a Start request no transition. -/
def step (s : ServiceStatus) : Input → ServiceStatus × List Output
  | .engineStarted =>
    if s.state = .StartPending then (running, [.report running]) else (s, [])
  | .engineBuildFailed =>
    if s.state = .StartPending then (stopped, [.report stopped]) else (s, [])
  | .request .Interrogate => (s, [.report s])
  | .request .Start => (s, [])
  | .request .Stop =>
    if Request.Stop ∈ s.accepts then (stopPending, [.report stopPending, .engineStop])
    else (s, [])
  | .request .Shutdown =>
    if Request.Shutdown ∈ s.accepts then (stopPending, [.report stopPending, .engineStop])
    else (s, [])
  | .engineReturned =>
    if s.state = .Running ∨ s.state = .StopPending then (stopped, [.report stopped])
    else (s, [])

/-- Modelled from the spec: a run of the absent adapter from status `s` over a
list of inputs, handled one at a time: the final status and everything
emitted, in order. -/
def exec (s : ServiceStatus) : List Input → ServiceStatus × List Output
  | [] => (s, [])
  | i :: rest => ((exec (step s i).1 rest).1, (step s i).2 ++ (exec (step s i).1 rest).2)

/-- Modelled from the spec: the status values the absent adapter moves into
during a run from `s`, one entry for each input that changed the status. -/
def transitions (s : ServiceStatus) : List Input → List Status
  | [] => []
  | i :: rest =>
    if (step s i).1.state = s.state then transitions (step s i).1 rest
    else (step s i).1.state :: transitions (step s i).1 rest

end Adapter

/-- Whether an output is the stop signal to the pipeline engine. -/
def Output.isEngineStop : Output → Bool
  | .engineStop => true
  | .report _ => false

/-- Whether an output is a report of the status Running. -/
def Output.isRunningReport : Output → Bool
  | .report status => decide (status.state = .Running)
  | .engineStop => false

namespace Adapter

/-- What holds of every configuration reached from the initial status: the
status is one of the four the specification names, and the number of stop
signals sent so far is fixed by it. -/
def Reached (s : ServiceStatus) (outs : List Output) : Prop :=
  (s = initial ∧ outs.countP Output.isEngineStop = 0) ∨
    (s = running ∧ outs.countP Output.isEngineStop = 0) ∨
    (s = stopPending ∧ outs.countP Output.isEngineStop = 1) ∨
    (s = stopped ∧ outs.countP Output.isEngineStop ≤ 1)

end Adapter

/-! ## Mode selection -/

/-- C1: when `NO_WINDOWS_SERVICE` is present with a value other than `"0"`
(the empty string included), `checkUseInteractiveMode` returns true and a nil
error after the environment lookup alone. The session query is not called, and
replacing its answer by any other, a failure included, leaves the run as it
is. -/
theorem checkUseInteractiveMode_override (w : World F C H) (v : String)
    (hpresent : w.lookupEnv "NO_WINDOWS_SERVICE" = some v) (hv : v ≠ "0") :
    checkUseInteractiveMode w
        = ⟨[.lookupEnv "NO_WINDOWS_SERVICE"], .returned (true, none)⟩ ∧
      ∀ session : Bool × Option GoError,
        checkUseInteractiveMode { w with isAnInteractiveSession := session }
          = checkUseInteractiveMode w := by
  constructor
  · simp [checkUseInteractiveMode, bind, Run.bind, Run.call, pure, Run.pure, hpresent, hv]
  · intro session
    simp [checkUseInteractiveMode, bind, Run.bind, Run.call, pure, Run.pure, hpresent, hv]

/-- Witness for C1: the variable is present and empty, the session query would
fail, and the result is true with a nil error. -/
theorem checkUseInteractiveMode_override_witness :
    checkUseInteractiveMode (sampleWorld none (some "") (false, some accessDenied) none none)
        = ⟨[.lookupEnv "NO_WINDOWS_SERVICE"], .returned (true, none)⟩ ∧
      ∀ session : Bool × Option GoError,
        checkUseInteractiveMode
            { sampleWorld none (some "") (false, some accessDenied) none none with
              isAnInteractiveSession := session }
          = checkUseInteractiveMode
              (sampleWorld none (some "") (false, some accessDenied) none none) :=
  checkUseInteractiveMode_override
    (sampleWorld none (some "") (false, some accessDenied) none none) "" rfl (by decide)

/-- Counterexample to C2 as stated: the variable is absent and the session
query fails with `accessDenied`; the error that comes back is not that error
but a new one that wraps it. -/
theorem checkUseInteractiveMode_error_is_wrapped :
    (sampleWorld none none (false, some accessDenied) none none).lookupEnv
        "NO_WINDOWS_SERVICE" = none ∧
      (sampleWorld none none (false, some accessDenied) none none).isAnInteractiveSession
        = (false, some accessDenied) ∧
      (checkUseInteractiveMode
          (sampleWorld none none (false, some accessDenied) none none)).outcome
        = .returned (false, some (.wrapError
            "failed to determine if we are running in an interactive session: Access is denied."
            accessDenied)) ∧
      ¬ ∃ b, (checkUseInteractiveMode
          (sampleWorld none none (false, some accessDenied) none none)).outcome
        = .returned (b, some accessDenied) := by
  refine ⟨rfl, rfl, ?_, ?_⟩
  · simp [checkUseInteractiveMode, bind, Run.bind, Run.call, pure, Run.pure, sampleWorld,
      fmtErrorfW, GoError.Error, accessDenied]
  · simp [checkUseInteractiveMode, bind, Run.bind, Run.call, pure, Run.pure, sampleWorld,
      fmtErrorfW, GoError.Error, accessDenied]

/-- C2, amended: when `NO_WINDOWS_SERVICE` is absent, `checkUseInteractiveMode`
looks the variable up, calls the session query once, and returns the boolean of
the query with a nil error when the query succeeds. When the query fails it
returns false with a new error that wraps the error of the query: unwrapping it
gives the error of the query, and its message is the fixed text
`failed to determine if we are running in an interactive session: ` followed by
the message of that error. -/
theorem checkUseInteractiveMode_absent (w : World F C H)
    (habsent : w.lookupEnv "NO_WINDOWS_SERVICE" = none) :
    (∀ b, w.isAnInteractiveSession = (b, none) →
        checkUseInteractiveMode w
          = ⟨[.lookupEnv "NO_WINDOWS_SERVICE", .isAnInteractiveSession],
             .returned (b, none)⟩) ∧
      (∀ b e, w.isAnInteractiveSession = (b, some e) →
        ∃ wrapped : GoError,
          checkUseInteractiveMode w
            = ⟨[.lookupEnv "NO_WINDOWS_SERVICE", .isAnInteractiveSession],
               .returned (false, some wrapped)⟩ ∧
          wrapped.Unwrap = some e ∧
          wrapped.Error
            = "failed to determine if we are running in an interactive session: " ++ e.Error) := by
  constructor
  · intro b hq
    simp [checkUseInteractiveMode, bind, Run.bind, Run.call, pure, Run.pure, habsent, hq]
  · intro b e hq
    refine ⟨fmtErrorfW "failed to determine if we are running in an interactive session: " e,
      ?_, rfl, rfl⟩
    simp [checkUseInteractiveMode, bind, Run.bind, Run.call, pure, Run.pure, habsent, hq]

/-- Witness for C2, amended: with the variable absent, a query that answers
true gives true, and a query that fails gives an error wrapping its error. -/
theorem checkUseInteractiveMode_absent_witness :
    checkUseInteractiveMode (sampleWorld none none (true, none) none none)
        = ⟨[.lookupEnv "NO_WINDOWS_SERVICE", .isAnInteractiveSession],
           .returned (true, none)⟩ ∧
      ∃ wrapped : GoError,
        checkUseInteractiveMode (sampleWorld none none (false, some accessDenied) none none)
          = ⟨[.lookupEnv "NO_WINDOWS_SERVICE", .isAnInteractiveSession],
             .returned (false, some wrapped)⟩ ∧
        wrapped.Unwrap = some accessDenied ∧
        wrapped.Error
          = "failed to determine if we are running in an interactive session: "
              ++ accessDenied.Error :=
  ⟨(checkUseInteractiveMode_absent (sampleWorld none none (true, none) none none) rfl).1
      true rfl,
   (checkUseInteractiveMode_absent
      (sampleWorld none none (false, some accessDenied) none none) rfl).2
      false accessDenied rfl⟩

/-- C10: when `NO_WINDOWS_SERVICE` is present with the value `"0"`, the run
of `checkUseInteractiveMode` (events, boolean and error) equals its run in any
world where the variable is absent and the session query answers the same. In
particular the override is not applied: the boolean is the one of the query
when the query succeeds. -/
theorem checkUseInteractiveMode_zero_as_absent (w wAbsent : World F C H)
    (hzero : w.lookupEnv "NO_WINDOWS_SERVICE" = some "0")
    (habsent : wAbsent.lookupEnv "NO_WINDOWS_SERVICE" = none)
    (hsame : w.isAnInteractiveSession = wAbsent.isAnInteractiveSession) :
    checkUseInteractiveMode w = checkUseInteractiveMode wAbsent ∧
      (∀ b, w.isAnInteractiveSession = (b, none) →
        (checkUseInteractiveMode w).outcome = .returned (b, none)) := by
  constructor
  · simp [checkUseInteractiveMode, bind, Run.bind, Run.call, pure, Run.pure, hzero, habsent,
      hsame]
  · intro b hq
    simp [checkUseInteractiveMode, bind, Run.bind, Run.call, pure, Run.pure, hzero, hq]

/-- Witness for C10: with the value `"0"` and a query that answers false, the
run is the one of the world without the variable, and the result is false. -/
theorem checkUseInteractiveMode_zero_as_absent_witness :
    checkUseInteractiveMode (sampleWorld none (some "0") (false, none) none none)
        = checkUseInteractiveMode (sampleWorld none none (false, none) none none) ∧
      (∀ b, (sampleWorld none (some "0") (false, none) none none).isAnInteractiveSession
          = (b, none) →
        (checkUseInteractiveMode (sampleWorld none (some "0") (false, none) none none)).outcome
          = .returned (b, none)) :=
  checkUseInteractiveMode_zero_as_absent
    (sampleWorld none (some "0") (false, none) none none)
    (sampleWorld none none (false, none) none none) rfl rfl rfl


/-! ## Choosing and starting a runner -/

/-- C3: when the override does not force interactive mode (the variable is
absent or is `"0"`) and the session query fails, `run` returns an error that is
not nil after the lookup and the query alone: no event of `runInteractive` or
of `runService` occurs. Conversely, in any world, when
`checkUseInteractiveMode` returns an error the session query was called and
had failed. -/
theorem run_query_failure (w : World F C H) (params : CollectorSettings F)
    (b : Bool) (e : GoError)
    (hnotforced : ∀ v, w.lookupEnv "NO_WINDOWS_SERVICE" = some v → v = "0")
    (hfail : w.isAnInteractiveSession = (b, some e)) :
    (∃ err : GoError,
        run w params
          = ⟨[.lookupEnv "NO_WINDOWS_SERVICE", .isAnInteractiveSession],
             .returned (some err)⟩) ∧
      (∀ ev ∈ (run w params).trace, ev.ofRunInteractive = false ∧ ev.ofRunService = false) ∧
      (∀ (w2 : World F C H) (b2 : Bool) (e2 : GoError),
        (checkUseInteractiveMode w2).outcome = .returned (b2, some e2) →
          Event.isAnInteractiveSession ∈ (checkUseInteractiveMode w2).trace ∧
          ∃ b0 e0, w2.isAnInteractiveSession = (b0, some e0)) := by
  have hrun : run w params
      = ⟨[.lookupEnv "NO_WINDOWS_SERVICE", .isAnInteractiveSession],
         .returned (some (fmtErrorfW
           "failed to determine if we are running in an interactive session: " e))⟩ := by
    cases hl : w.lookupEnv "NO_WINDOWS_SERVICE" with
    | none =>
      simp [run, checkUseInteractiveMode, bind, Run.bind, Run.call, pure, Run.pure, hl, hfail]
    | some v =>
      have hv : v = "0" := hnotforced v hl
      subst hv
      simp [run, checkUseInteractiveMode, bind, Run.bind, Run.call, pure, Run.pure, hl, hfail]
  refine ⟨⟨_, hrun⟩, ?_, ?_⟩
  · intro ev hev
    rw [hrun] at hev
    simp at hev
    rcases hev with rfl | rfl <;> simp [Event.ofRunInteractive, Event.ofRunService]
  · intro w2 b2 e2 hout
    rcases hq : w2.isAnInteractiveSession with ⟨b0, _ | e0⟩
    · cases hl : w2.lookupEnv "NO_WINDOWS_SERVICE" with
      | none =>
        simp [checkUseInteractiveMode, bind, Run.bind, Run.call, pure, Run.pure, hl, hq] at hout
      | some v =>
        by_cases hv : v = "0"
        · simp [checkUseInteractiveMode, bind, Run.bind, Run.call, pure, Run.pure, hl, hq, hv]
            at hout
        · simp [checkUseInteractiveMode, bind, Run.bind, Run.call, pure, Run.pure, hl, hq, hv]
            at hout
    · refine ⟨?_, b0, e0, rfl⟩
      cases hl : w2.lookupEnv "NO_WINDOWS_SERVICE" with
      | none =>
        simp [checkUseInteractiveMode, bind, Run.bind, Run.call, pure, Run.pure, hl, hq]
      | some v =>
        by_cases hv : v = "0"
        · simp [checkUseInteractiveMode, bind, Run.bind, Run.call, pure, Run.pure, hl, hq, hv]
        · simp [checkUseInteractiveMode, bind, Run.bind, Run.call, pure, Run.pure, hl, hq, hv]
            at hout

/-- Witness for C3: the variable is `"0"` and the session query fails. -/
theorem run_query_failure_witness :
    (∃ err : GoError,
        run (sampleWorld none (some "0") (true, some accessDenied) none none) sampleSettings
          = ⟨[.lookupEnv "NO_WINDOWS_SERVICE", .isAnInteractiveSession],
             .returned (some err)⟩) ∧
      (∀ ev ∈ (run (sampleWorld none (some "0") (true, some accessDenied) none none)
          sampleSettings).trace,
        ev.ofRunInteractive = false ∧ ev.ofRunService = false) :=
  have h := run_query_failure
    (sampleWorld none (some "0") (true, some accessDenied) none none) sampleSettings
    true accessDenied
    (by intro v hv; simpa [sampleWorld] using hv.symm) rfl
  ⟨h.1, h.2.1⟩


/-- The events of `runInteractive` are its own two calls and, on failure, the
log line and the exit. -/
theorem runInteractive_trace_events (w : World F C H) (params : CollectorSettings F) :
    ∀ ev ∈ (runInteractive w params).trace,
      ev.ofModeSelection = false ∧ ev.ofRunService = false ∧ ev.ofServiceManager = false := by
  intro ev hev
  cases hx : w.execute (w.newCommand params) with
  | none =>
    simp [runInteractive, bind, Run.bind, Run.call, pure, Run.pure, hx] at hev
    rcases hev with rfl | rfl <;>
      simp [Event.ofModeSelection, Event.ofRunService, Event.ofServiceManager]
  | some e =>
    simp [runInteractive, bind, Run.bind, Run.call, logFatal, hx] at hev
    rcases hev with rfl | rfl | rfl | rfl <;>
      simp [Event.ofModeSelection, Event.ofRunService, Event.ofServiceManager]

/-- The events of `runService` are its own two calls. -/
theorem runService_trace (w : World F C H) (params : CollectorSettings F) :
    (runService w params).trace
      = [.newWindowsService params, .svcRun "" (w.newWindowsService params)] := by
  cases hx : w.svcRun "" (w.newWindowsService params) <;>
    simp [runService, bind, Run.bind, Run.call, pure, Run.pure, hx]

/-- The trace of `checkUseInteractiveMode`: one environment lookup, then at
most the session query, and nothing else; it always returns. -/
theorem checkUseInteractiveMode_shape (w : World F C H) :
    ∃ result,
      (checkUseInteractiveMode w).outcome = .returned result ∧
      ((checkUseInteractiveMode w).trace = [.lookupEnv "NO_WINDOWS_SERVICE"] ∨
        (checkUseInteractiveMode w).trace
          = [.lookupEnv "NO_WINDOWS_SERVICE", .isAnInteractiveSession]) := by
  rcases hq : w.isAnInteractiveSession with ⟨b0, _ | e0⟩ <;>
  cases hl : w.lookupEnv "NO_WINDOWS_SERVICE" with
  | none =>
    simp [checkUseInteractiveMode, bind, Run.bind, Run.call, pure, Run.pure, hl, hq]
  | some v =>
    by_cases hv : v = "0" <;>
    simp [checkUseInteractiveMode, bind, Run.bind, Run.call, pure, Run.pure, hl, hq, hv]

/-- C4: whenever mode selection succeeds with the boolean `b`, the run of
`run` is the run of `checkUseInteractiveMode` followed by the run of exactly
one runner: `runInteractive` when `b` is true, `runService` when `b` is false.
In the whole trace the environment is looked up once and the session is
queried at most once, so the selection is made once and not again after the
runner started; the two calls of `runInteractive` occur (once each) exactly
when `b` is true and the two calls of `runService` exactly when `b` is false,
never both. -/
theorem run_exactly_one_runner (w : World F C H) (params : CollectorSettings F) (b : Bool)
    (hselected : (checkUseInteractiveMode w).outcome = .returned (b, none)) :
    run w params
        = ⟨(checkUseInteractiveMode w).trace
            ++ (if b then runInteractive w params else runService w params).trace,
           (if b then runInteractive w params else runService w params).outcome⟩ ∧
      (run w params).trace.countP Event.isLookupEnv = 1 ∧
      (run w params).trace.countP Event.isSessionQuery ≤ 1 ∧
      (run w params).trace.countP Event.ofRunInteractive = (if b then 2 else 0) ∧
      (run w params).trace.countP Event.ofRunService = (if b then 0 else 2) := by
  have hrun : run w params
      = ⟨(checkUseInteractiveMode w).trace
          ++ (if b then runInteractive w params else runService w params).trace,
         (if b then runInteractive w params else runService w params).outcome⟩ := by
    simp [run, bind, Run.bind, hselected]
  refine ⟨hrun, ?_⟩
  rw [hrun]
  obtain ⟨result, -, htrace⟩ := checkUseInteractiveMode_shape w
  cases b with
  | true =>
    cases hx : w.execute (w.newCommand params) <;>
    rcases htrace with ht | ht <;>
    simp [ht, runInteractive, bind, Run.bind, Run.call, pure, Run.pure, logFatal, hx,
      Event.isLookupEnv, Event.isSessionQuery, Event.ofRunInteractive, Event.ofRunService,
      List.countP_cons]
  | false =>
    rcases htrace with ht | ht <;>
    simp [ht, runService_trace, Event.isLookupEnv, Event.isSessionQuery,
      Event.ofRunInteractive, Event.ofRunService, List.countP_cons]

/-- Witness for C4: the variable is absent and the session is not interactive,
so the service runner is the one that runs. -/
theorem run_exactly_one_runner_witness :
    run (sampleWorld none none (false, none) none none) sampleSettings
        = ⟨(checkUseInteractiveMode (sampleWorld none none (false, none) none none)).trace
            ++ (runService (sampleWorld none none (false, none) none none) sampleSettings).trace,
           (runService (sampleWorld none none (false, none) none none) sampleSettings).outcome⟩ ∧
      (run (sampleWorld none none (false, none) none none) sampleSettings).trace.countP
        Event.ofRunInteractive = 0 ∧
      (run (sampleWorld none none (false, none) none none) sampleSettings).trace.countP
        Event.ofRunService = 2 :=
  have h := run_exactly_one_runner (sampleWorld none none (false, none) none none)
    sampleSettings false rfl
  ⟨h.1, h.2.2.2.1, h.2.2.2.2⟩


/-- C5: once managed mode is selected, the run of `run` is the selection
followed by `runService`, and `run` returns what `runService` returns. When
`svc.Run` fails, `runService` returns an error that is not nil (one wrapping
the error of `svc.Run`), `run` returns that same error, and no call of
`runInteractive` occurs anywhere in the trace. `runService` returns nil exactly
when `svc.Run` returned nil. -/
theorem runService_registration_failure (w : World F C H) (params : CollectorSettings F)
    (hmanaged : (checkUseInteractiveMode w).outcome = .returned (false, none)) :
    (run w params).outcome = (runService w params).outcome ∧
      (∀ e, w.svcRun "" (w.newWindowsService params) = some e →
        (runService w params).outcome
            = .returned (some (fmtErrorfW "failed to start collector server: " e)) ∧
          (run w params).outcome
            = .returned (some (fmtErrorfW "failed to start collector server: " e))) ∧
      (∀ ev ∈ (run w params).trace, ev.ofRunInteractive = false) ∧
      ((runService w params).outcome = .returned none
        ↔ w.svcRun "" (w.newWindowsService params) = none) := by
  have hrun : run w params
      = ⟨(checkUseInteractiveMode w).trace ++ (runService w params).trace,
         (runService w params).outcome⟩ := by
    simp [run, bind, Run.bind, hmanaged]
  refine ⟨by rw [hrun], ?_, ?_, ?_⟩
  · intro e he
    rw [hrun]
    simp [runService, bind, Run.bind, Run.call, pure, Run.pure, he]
  · intro ev hev
    rw [hrun, runService_trace] at hev
    obtain ⟨result, -, htrace⟩ := checkUseInteractiveMode_shape w
    rcases htrace with ht | ht <;> rw [ht] at hev <;> simp at hev
    · rcases hev with rfl | rfl | rfl <;> simp [Event.ofRunInteractive]
    · rcases hev with rfl | rfl | rfl | rfl <;> simp [Event.ofRunInteractive]
  · cases hx : w.svcRun "" (w.newWindowsService params) <;>
      simp [runService, bind, Run.bind, Run.call, pure, Run.pure, hx]

/-- Witness for C5: the session is not interactive and `svc.Run` fails. -/
theorem runService_registration_failure_witness :
    (run (sampleWorld none none (false, none) none (some accessDenied)) sampleSettings).outcome
        = .returned (some (fmtErrorfW "failed to start collector server: " accessDenied)) ∧
      (∀ ev ∈ (run (sampleWorld none none (false, none) none (some accessDenied))
          sampleSettings).trace, ev.ofRunInteractive = false) :=
  have h := runService_registration_failure
    (sampleWorld none none (false, none) none (some accessDenied)) sampleSettings rfl
  ⟨(h.2.1 accessDenied rfl).2, h.2.2.1⟩

/-- C6: when `components` returns an error that is not nil, `main` logs it and
ends the process with exit code 1 right after the call of `components`: `run`
is not reached, so the trace has no environment lookup, no session query and
no call of a runner. When `components` succeeds and `run` on the settings
built from its factories returns an error that is not nil, `main` logs that
error and ends the process with exit code 1. -/
theorem main_fatal_exits (w : World F C H) :
    (∀ e, w.components.2 = some e →
        main w = ⟨[.components, .logOutput ("failed to build components: " ++ e.Error),
                   .osExit 1], .exited 1⟩ ∧
          (main w).exitCode ≠ 0 ∧
          ∀ ev ∈ (main w).trace,
            ev.ofModeSelection = false ∧ ev.ofRunInteractive = false ∧
              ev.ofRunService = false) ∧
      (∀ e, w.components.2 = none →
        (run w { BuildInfo := info, Factories := w.components.1 }).outcome
            = .returned (some e) →
          main w = ⟨.components
                      :: (run w { BuildInfo := info, Factories := w.components.1 }).trace
                      ++ [.logOutput e.Error, .osExit 1], .exited 1⟩ ∧
            (main w).exitCode ≠ 0) := by
  constructor
  · intro e he
    have hmain : main w
        = ⟨[.components, .logOutput ("failed to build components: " ++ e.Error), .osExit 1],
           .exited 1⟩ := by
      rcases hc : w.components with ⟨factories, err⟩
      rw [hc] at he
      simp at he
      subst he
      simp [main, bind, Run.bind, Run.call, logFatal, hc]
    refine ⟨hmain, ?_, ?_⟩
    · rw [hmain]; simp [Run.exitCode]
    · intro ev hev
      rw [hmain] at hev
      simp at hev
      rcases hev with rfl | rfl | rfl <;>
        simp [Event.ofModeSelection, Event.ofRunInteractive, Event.ofRunService]
  · intro e he hrun
    have hmain : main w
        = ⟨.components :: (run w { BuildInfo := info, Factories := w.components.1 }).trace
            ++ [.logOutput e.Error, .osExit 1], .exited 1⟩ := by
      rcases hc : w.components with ⟨factories, err⟩
      rw [hc] at he hrun
      simp at he hrun
      subst he
      simp [main, bind, Run.bind, Run.call, logFatal, hc, hrun]
    refine ⟨hmain, ?_⟩
    rw [hmain]; simp [Run.exitCode]

/-- Witness for C6: a world where `components` fails, and a world where
`components` succeeds, managed mode is selected and `svc.Run` fails. -/
theorem main_fatal_exits_witness :
    main (sampleWorld (some accessDenied) none (false, none) none none)
        = ⟨[.components, .logOutput ("failed to build components: " ++ accessDenied.Error),
            .osExit 1], .exited 1⟩ ∧
      (main (sampleWorld none none (false, none) none (some accessDenied))).exitCode ≠ 0 :=
  ⟨((main_fatal_exits (sampleWorld (some accessDenied) none (false, none) none none)).1
      accessDenied rfl).1,
   ((main_fatal_exits (sampleWorld none none (false, none) none (some accessDenied))).2
      (fmtErrorfW "failed to start collector server: " accessDenied) rfl rfl).2⟩

/-- C7: for every settings value, `runInteractive` builds the command from
those settings with `service.NewCommand` and executes that command, in this
order and once each. When the execution returns an error, one fatal log line
is written and the process ends with exit code 1, so `runInteractive` does not
return; when it returns nil, `runInteractive` returns nil. `runInteractive`
therefore never returns an error that is not nil, and its trace has no call to
the service manager and no event of `runService`. -/
theorem runInteractive_contract (w : World F C H) (params : CollectorSettings F) :
    (∀ e, w.execute (w.newCommand params) = some e →
        runInteractive w params
          = ⟨[.newCommand params, .execute (w.newCommand params),
              .logOutput ("collector server run finished with error: " ++ e.Error),
              .osExit 1], .exited 1⟩) ∧
      (w.execute (w.newCommand params) = none →
        runInteractive w params
          = ⟨[.newCommand params, .execute (w.newCommand params)], .returned none⟩) ∧
      (∀ e, (runInteractive w params).outcome ≠ .returned (some e)) ∧
      (∀ ev ∈ (runInteractive w params).trace,
        ev.ofServiceManager = false ∧ ev.ofRunService = false) := by
  refine ⟨?_, ?_, ?_, ?_⟩
  · intro e he
    simp [runInteractive, bind, Run.bind, Run.call, logFatal, he]
  · intro he
    simp [runInteractive, bind, Run.bind, Run.call, pure, Run.pure, he]
  · intro e
    cases hx : w.execute (w.newCommand params) <;>
      simp [runInteractive, bind, Run.bind, Run.call, pure, Run.pure, logFatal, hx]
  · intro ev hev
    have h := runInteractive_trace_events w params ev hev
    exact ⟨h.2.2, h.2.1⟩

/-- Witness for C7: one world where the execution fails and one where it
returns nil. -/
theorem runInteractive_contract_witness :
    runInteractive (sampleWorld none none (true, none) (some accessDenied) none) sampleSettings
        = ⟨[.newCommand sampleSettings, .execute "command",
            .logOutput ("collector server run finished with error: " ++ accessDenied.Error),
            .osExit 1], .exited 1⟩ ∧
      runInteractive (sampleWorld none none (true, none) none none) sampleSettings
        = ⟨[.newCommand sampleSettings, .execute "command"], .returned none⟩ :=
  ⟨(runInteractive_contract (sampleWorld none none (true, none) (some accessDenied) none)
      sampleSettings).1 accessDenied rfl,
   (runInteractive_contract (sampleWorld none none (true, none) none none)
      sampleSettings).2.1 rfl⟩

namespace Adapter

/-! ## Properties of the service control adapter -/

theorem exec_append (s : ServiceStatus) (a b : List Input) :
    exec s (a ++ b)
      = ((exec (exec s a).1 b).1, (exec s a).2 ++ (exec (exec s a).1 b).2) := by
  induction a generalizing s with
  | nil => simp [exec]
  | cons i rest ih => simp [exec, ih, List.append_assoc]

/-- In the terminal status nothing changes any more: every input leaves the
status Stopped, and all that is emitted is the report of Stopped again. -/
theorem exec_stopped (l : List Input) :
    (exec stopped l).1 = stopped ∧
      (∀ o ∈ (exec stopped l).2, o = .report stopped) ∧
      transitions stopped l = [] := by
  induction l with
  | nil => simp [exec, transitions]
  | cons i rest ih =>
    have hstep : (step stopped i).1 = stopped ∧ ∀ o ∈ (step stopped i).2, o = .report stopped := by
      rcases i with _ | _ | r | _
      · simp [step, stopped]
      · simp [step, stopped]
      · cases r <;> simp [step, stopped]
      · simp [step, stopped]
    obtain ⟨h1, h2, h3⟩ := ih
    refine ⟨?_, ?_, ?_⟩
    · simp [exec, hstep.1, h1]
    · intro o ho
      simp only [exec, hstep.1, List.mem_append] at ho
      rcases ho with ho | ho
      · exact hstep.2 o ho
      · exact h2 o ho
    · simp [transitions, hstep.1, h3]

/-- From StopPending the status stays StopPending until the run call of the
engine returns, then it is Stopped for good; no stop signal is sent again. -/
theorem exec_stopPending (l : List Input) :
    (exec stopPending l).1 = (if Input.engineReturned ∈ l then stopped else stopPending) ∧
      (∀ o ∈ (exec stopPending l).2, o = .report stopPending ∨ o = .report stopped) ∧
      transitions stopPending l = (if Input.engineReturned ∈ l then [.Stopped] else []) := by
  induction l with
  | nil => simp [exec, transitions]
  | cons i rest ih =>
    obtain ⟨h1, h2, h3⟩ := ih
    obtain ⟨k1, k2, k3⟩ := exec_stopped rest
    by_cases hi : i = .engineReturned
    · subst hi
      have hstep : step stopPending .engineReturned = (stopped, [.report stopped]) := by
        simp [step, stopPending]
      refine ⟨?_, ?_, ?_⟩
      · simp [exec, hstep, k1]
      · intro o ho
        simp only [exec, hstep, List.mem_append, List.mem_singleton] at ho
        rcases ho with ho | ho
        · exact Or.inr ho
        · exact Or.inr (k2 o ho)
      · rw [transitions, hstep]
        simp only [k3]
        simp [stopped, stopPending]
    · have hstep : (step stopPending i).1 = stopPending ∧
          ∀ o ∈ (step stopPending i).2, o = .report stopPending := by
        rcases i with _ | _ | r | _
        · simp [step, stopPending]
        · simp [step, stopPending]
        · cases r <;> simp [step, stopPending]
        · exact absurd rfl hi
      have hmem : (Input.engineReturned ∈ i :: rest) ↔ Input.engineReturned ∈ rest := by
        simp [List.mem_cons, Ne.symm hi]
      refine ⟨?_, ?_, ?_⟩
      · simp only [exec, hstep.1, h1, hmem]
      · intro o ho
        simp only [exec, hstep.1, List.mem_append] at ho
        rcases ho with ho | ho
        · exact Or.inl (hstep.2 o ho)
        · exact h2 o ho
      · simp only [transitions, hstep.1, h3, hmem, if_true]

theorem reached_step (s : ServiceStatus) (outs : List Output) (i : Input)
    (h : Reached s outs) : Reached (step s i).1 (outs ++ (step s i).2) := by
  rcases h with ⟨rfl, hc⟩ | ⟨rfl, hc⟩ | ⟨rfl, hc⟩ | ⟨rfl, hc⟩ <;>
    rcases i with _ | _ | r | _ <;> try cases r
  all_goals
    simp [Reached, step, initial, running, stopPending, stopped, List.countP_append,
      List.countP_cons, Output.isEngineStop, hc]

theorem reached_exec (l : List Input) :
    Reached (exec initial l).1 (exec initial l).2 := by
  induction l using List.reverseRecOn with
  | nil => simp [exec, Reached]
  | append_singleton rest i ih =>
    have h := reached_step _ _ i ih
    rw [exec_append]
    simpa [exec] using h

/-- Without a successful engine start the status never becomes Running and
Running is never reported, from any status that is not Running. -/
theorem never_running (s : ServiceStatus) (l : List Input)
    (hs : s.state ≠ .Running) (hl : Input.engineStarted ∉ l) :
    (exec s l).1.state ≠ .Running ∧ ∀ o ∈ (exec s l).2, o.isRunningReport = false := by
  induction l generalizing s with
  | nil => simp [exec, hs]
  | cons i rest ih =>
    have hi : i ≠ .engineStarted := fun h => hl (by simp [h])
    have hrest : Input.engineStarted ∉ rest := fun h => hl (by simp [h])
    have hstep : (step s i).1.state ≠ .Running ∧
        ∀ o ∈ (step s i).2, o.isRunningReport = false := by
      rcases i with _ | _ | r | _
      · exact absurd rfl hi
      · by_cases h : s.state = .StartPending <;>
          simp [step, h, hs, stopped, Output.isRunningReport]
      · cases r
        · simp [step, hs]
        · by_cases h : Request.Stop ∈ s.accepts <;>
            simp [step, h, hs, stopPending, Output.isRunningReport]
        · simp [step, hs, Output.isRunningReport]
        · by_cases h : Request.Shutdown ∈ s.accepts <;>
            simp [step, h, hs, stopPending, Output.isRunningReport]
      · by_cases h : s.state = .StopPending <;>
          simp [step, h, hs, stopped, Output.isRunningReport]
    obtain ⟨h1, h2⟩ := ih (step s i).1 hstep.1 hrest
    refine ⟨by simpa [exec] using h1, ?_⟩
    intro o ho
    simp only [exec, List.mem_append] at ho
    rcases ho with ho | ho
    · exact hstep.2 o ho
    · exact h2 o ho

/-- Without a successful engine start the adapter is still in its initial
status, or it is in the terminal status and has reported it. -/
theorem initial_or_stopped (l : List Input) (hl : Input.engineStarted ∉ l) :
    (exec initial l).1 = initial ∨
      ((exec initial l).1 = stopped ∧ Output.report stopped ∈ (exec initial l).2) := by
  induction l with
  | nil => simp [exec]
  | cons i rest ih =>
    have hi : i ≠ .engineStarted := fun h => hl (by simp [h])
    have hrest : Input.engineStarted ∉ rest := fun h => hl (by simp [h])
    by_cases hf : i = .engineBuildFailed
    · subst hf
      right
      have hstep : step initial .engineBuildFailed = (stopped, [.report stopped]) := by
        simp [step, initial]
      simp [exec, hstep, (exec_stopped rest).1]
    · have hstep : (step initial i).1 = initial := by
        rcases i with _ | _ | r | _
        · exact absurd rfl hi
        · exact absurd rfl hf
        · cases r <;> simp [step, initial]
        · simp [step, initial]
      rcases ih hrest with h | ⟨h, hm⟩
      · left
        simp [exec, hstep, h]
      · right
        refine ⟨by simp [exec, hstep, h], ?_⟩
        simp only [exec, hstep, List.mem_append]
        exact Or.inr hm


/-- C8: in every run of the adapter from its initial status, if the status is
Running at the end, or Running was reported at any point, then the inputs
contain the successful start of the pipeline engine. And whenever the engine
fails to build before any successful start, the run ends in the terminal
status Stopped whatever comes after, Stopped has been reported, and Running is
reported nowhere in the run. -/
theorem running_only_after_engine_started (inputs : List Input) :
    ((exec initial inputs).1.state = .Running → Input.engineStarted ∈ inputs) ∧
      ((∃ o ∈ (exec initial inputs).2, o.isRunningReport = true) →
        Input.engineStarted ∈ inputs) ∧
      (∀ before after : List Input,
        inputs = before ++ Input.engineBuildFailed :: after →
        Input.engineStarted ∉ before →
          (exec initial inputs).1 = stopped ∧
            Output.report stopped ∈ (exec initial inputs).2 ∧
            ∀ o ∈ (exec initial inputs).2, o.isRunningReport = false) := by
  have hinit : initial.state ≠ .Running := by simp [initial]
  refine ⟨?_, ?_, ?_⟩
  · intro hrun
    by_contra hno
    exact (never_running initial inputs hinit hno).1 hrun
  · rintro ⟨o, ho, hrep⟩
    by_contra hno
    have h := (never_running initial inputs hinit hno).2 o ho
    rw [h] at hrep
    exact Bool.false_ne_true hrep
  · intro before after hsplit hbefore
    subst hsplit
    obtain ⟨hb1, hb2⟩ := never_running initial before hinit hbefore
    obtain ⟨k1, k2, -⟩ := exec_stopped after
    have hstopped : ∀ o, o = Output.report stopped → o.isRunningReport = false := by
      intro o ho
      subst ho
      simp [Output.isRunningReport, stopped]
    rw [exec_append]
    rcases initial_or_stopped before hbefore with h | ⟨h, hm⟩
    · have hstep : step initial .engineBuildFailed = (stopped, [.report stopped]) := by
        simp [step, initial]
      refine ⟨by simp [exec, h, hstep, k1], by simp [exec, h, hstep], ?_⟩
      intro o ho
      simp only [exec, h, hstep, List.mem_append, List.mem_singleton] at ho
      rcases ho with ho | ho | ho
      · exact hb2 o ho
      · exact hstopped o ho
      · exact hstopped o (k2 o ho)
    · have hstep : step stopped .engineBuildFailed = (stopped, []) := by
        simp [step, stopped]
      refine ⟨by simp [exec, h, hstep, k1], by simp [hm], ?_⟩
      intro o ho
      simp only [exec, h, hstep, List.mem_append, List.nil_append] at ho
      rcases ho with ho | ho
      · exact hb2 o ho
      · exact hstopped o (k2 o ho)

/-- Witness for C8: a run that reaches Running contains the engine start, and
a run where the engine fails to build after a Stop request and an Interrogate
request ends Stopped, even though a late engine start and a Stop follow. -/
theorem running_only_after_engine_started_witness :
    Input.engineStarted ∈ [Input.request .Interrogate, Input.engineStarted] ∧
      ((exec initial [.request .Stop, .request .Interrogate, .engineBuildFailed,
            .engineStarted, .request .Stop]).1 = stopped ∧
        Output.report stopped ∈
          (exec initial [.request .Stop, .request .Interrogate, .engineBuildFailed,
            .engineStarted, .request .Stop]).2 ∧
        ∀ o ∈ (exec initial [.request .Stop, .request .Interrogate, .engineBuildFailed,
            .engineStarted, .request .Stop]).2, o.isRunningReport = false) :=
  ⟨(running_only_after_engine_started [.request .Interrogate, .engineStarted]).1 (by decide),
   (running_only_after_engine_started [.request .Stop, .request .Interrogate,
      .engineBuildFailed, .engineStarted, .request .Stop]).2.2
      [.request .Stop, .request .Interrogate] [.engineStarted, .request .Stop] rfl
      (by decide)⟩

/-- C9: in every run of the adapter from its initial status, while the status
is StartPending a Stop or Shutdown request is not accepted (it changes nothing
and emits nothing) and no stop signal has been sent to the engine. Over the
whole run at most one stop signal is sent. And once the status is Running, a
Stop or Shutdown request followed by any further inputs, duplicate Stop
requests included, moves the status to StopPending once and then to Stopped
once when the run call of the engine returns (and to nothing else), with
exactly one stop signal sent to the engine. -/
theorem stop_request_handling (inputs : List Input) :
    ((exec initial inputs).1.state = .StartPending →
        (∀ r, r = Request.Stop ∨ r = Request.Shutdown →
          step (exec initial inputs).1 (.request r) = ((exec initial inputs).1, [])) ∧
        (exec initial inputs).2.countP Output.isEngineStop = 0) ∧
      (exec initial inputs).2.countP Output.isEngineStop ≤ 1 ∧
      ((exec initial inputs).1.state = .Running →
        ∀ r, r = Request.Stop ∨ r = Request.Shutdown → ∀ later : List Input,
          transitions (exec initial inputs).1 (.request r :: later)
              = (if Input.engineReturned ∈ later then [.StopPending, .Stopped]
                 else [.StopPending]) ∧
            (exec (exec initial inputs).1 (.request r :: later)).2.countP
              Output.isEngineStop = 1 ∧
            (exec initial (inputs ++ .request r :: later)).2.countP
              Output.isEngineStop = 1) := by
  have hreached := reached_exec inputs
  refine ⟨?_, ?_, ?_⟩
  · intro hstate
    rcases hreached with ⟨hs, hc⟩ | ⟨hs, hc⟩ | ⟨hs, hc⟩ | ⟨hs, hc⟩
    · refine ⟨?_, hc⟩
      rintro r (rfl | rfl) <;> rw [hs] <;> simp [step, initial]
    · rw [hs] at hstate; simp [running] at hstate
    · rw [hs] at hstate; simp [stopPending] at hstate
    · rw [hs] at hstate; simp [stopped] at hstate
  · rcases hreached with ⟨-, hc⟩ | ⟨-, hc⟩ | ⟨-, hc⟩ | ⟨-, hc⟩ <;> omega
  · intro hstate r hr later
    rcases hreached with ⟨hs, hc⟩ | ⟨hs, hc⟩ | ⟨hs, hc⟩ | ⟨hs, hc⟩
    · rw [hs] at hstate; simp [initial] at hstate
    · have hstep : step running (.request r)
          = (stopPending, [.report stopPending, .engineStop]) := by
        rcases hr with rfl | rfl <;> simp [step, running]
      obtain ⟨-, k2, k3⟩ := exec_stopPending later
      have hnone : (exec stopPending later).2.countP Output.isEngineStop = 0 := by
        rw [List.countP_eq_zero]
        intro o ho
        rcases k2 o ho with rfl | rfl <;> simp [Output.isEngineStop]
      have hafter : (exec running (.request r :: later)).2.countP Output.isEngineStop = 1 := by
        simp [exec, hstep, List.countP_append, List.countP_cons, Output.isEngineStop, hnone]
      refine ⟨?_, ?_, ?_⟩
      · rw [hs, transitions, hstep]
        simp only [k3]
        by_cases hret : Input.engineReturned ∈ later <;>
          simp [hret, running, stopPending]
      · rw [hs]; exact hafter
      · rw [exec_append, hs]
        simp only [List.countP_append, hc, hafter]
    · rw [hs] at hstate; simp [stopPending] at hstate
    · rw [hs] at hstate; simp [stopped] at hstate

/-- Witness for C9: a Stop request in the initial status is not accepted, and
after the engine started a Stop request followed by a second Stop, a Shutdown,
the return of the engine and one more Stop gives the two transitions and one
stop signal. -/
theorem stop_request_handling_witness :
    step (exec initial [.request .Interrogate]).1 (.request .Stop)
        = ((exec initial [.request .Interrogate]).1, []) ∧
      transitions (exec initial [.engineStarted]).1
          [.request .Stop, .request .Stop, .request .Shutdown, .engineReturned, .request .Stop]
        = [.StopPending, .Stopped] ∧
      (exec initial ([.engineStarted] ++ [.request .Stop, .request .Stop, .request .Shutdown,
          .engineReturned, .request .Stop])).2.countP Output.isEngineStop = 1 :=
  have h := (stop_request_handling [.engineStarted]).2.2 (by decide) .Stop (Or.inl rfl)
    [.request .Stop, .request .Shutdown, .engineReturned, .request .Stop]
  ⟨((stop_request_handling [.request .Interrogate]).1 (by decide)).1 .Stop (Or.inl rfl),
   by simpa using h.1, h.2.2⟩

end Adapter

end Collector
